import Mathlib

/-!
A shallow embedding of the SpaceBio engine retrieval core.

Definitions translate the functions of `src/SpacebioEngine/src/app/app.py`
(corpus loading, TF-IDF search orchestration, snippet highlighting) and the
module body of `src/SpacebioEngine/03_build_index_and_save.py` (offline index
build).  The floating-point TF-IDF/cosine arithmetic is abstracted into a
scoring parameter `sim` (the similarity vector scikit-learn returns); every
discrete part — facet filtering, the emptiness guards, the scikit-learn
tokenizer and stop-word list, the pandas descending sort, the copy/mutation
discipline — is modelled concretely over lists, `Option` (a `none` cell is a
pandas NaN) and `Except` (a raised Python exception).
-/

/-- A corpus row as the app reads it: the three columns `search_experiments`
touches.  A `none` field models a pandas NaN cell. -/
structure SBRecord where
  summary : String
  assay : Option String
  organism : Option String
deriving DecidableEq, Repr

/-- Lines 127-128 of `app.py`: `if assay_filter and assay_filter != "All":
filtered_df = filtered_df[filtered_df["Assay Name"] == assay_filter]`.
`none` models Python `None`; the empty string is falsy in Python, so it
also passes every row.  Rows carry their pandas index (insertion
position). -/
def assayFilterStage (assay_filter : Option String)
    (rows : List (Nat × SBRecord)) : List (Nat × SBRecord) :=
  match assay_filter with
  | some a =>
    if a != "" && a != "All" then rows.filter (fun p => p.2.assay == some a) else rows
  | none => rows

/-- Lines 129-130 of `app.py`: the analogous organism filter. -/
def organismFilterStage (organism_filter : Option String)
    (rows : List (Nat × SBRecord)) : List (Nat × SBRecord) :=
  match organism_filter with
  | some o =>
    if o != "" && o != "All" then rows.filter (fun p => p.2.organism == some o) else rows
  | none => rows

/-- Lines 126-130 of `app.py`: both facet filters in source order. -/
def applyFacetFilters (assay_filter organism_filter : Option String)
    (rows : List (Nat × SBRecord)) : List (Nat × SBRecord) :=
  organismFilterStage organism_filter (assayFilterStage assay_filter rows)

/-- Python's `\w` on the ASCII plane: letters, digits and the underscore. -/
def isWordChar (c : Char) : Bool := c.isAlphanum || c == '_'

/-- Maximal runs of characters satisfying `p`; `acc` holds the current run
reversed. -/
def runsByAux (p : Char → Bool) : List Char → List Char → List (List Char)
  | [], acc => if acc.isEmpty then [] else [acc.reverse]
  | c :: cs, acc =>
    if p c then runsByAux p cs (c :: acc)
    else if acc.isEmpty then runsByAux p cs [] else acc.reverse :: runsByAux p cs []

/-- Maximal runs of characters satisfying `p`. -/
def runsBy (p : Char → Bool) (l : List Char) : List (List Char) := runsByAux p l []

/-- The analyzer of `TfidfVectorizer`: lowercase the document, then extract
the tokens of `token_pattern r"(?u)\b\w\w+\b"`, i.e. the maximal
word-character runs of length at least two. -/
def sklearnTokenize (s : String) : List String :=
  ((runsBy isWordChar (s.data.map Char.toLower)).filter (fun r => 2 ≤ r.length)).map
    (fun r => String.mk r)

/-- The frozen English stop-word list of scikit-learn
(`sklearn.feature_extraction.text.ENGLISH_STOP_WORDS`), selected by
`TfidfVectorizer(stop_words="english")` on line 140 of `app.py`. -/
def ENGLISH_STOP_WORDS : List String :=
  [ "a", "about", "above", "across", "after", "afterwards", "again", "against",
    "all", "almost", "alone", "along", "already", "also", "although", "always",
    "am", "among", "amongst", "amoungst", "amount", "an", "and", "another",
    "any", "anyhow", "anyone", "anything", "anyway", "anywhere", "are",
    "around", "as", "at", "back", "be", "became", "because", "become",
    "becomes", "becoming", "been", "before", "beforehand", "behind", "being",
    "below", "beside", "besides", "between", "beyond", "bill", "both",
    "bottom", "but", "by", "call", "can", "cannot", "cant", "co", "con",
    "could", "couldnt", "cry", "de", "describe", "detail", "do", "done",
    "down", "due", "during", "each", "eg", "eight", "either", "eleven",
    "else", "elsewhere", "empty", "enough", "etc", "even", "ever", "every",
    "everyone", "everything", "everywhere", "except", "few", "fifteen",
    "fifty", "fill", "find", "fire", "first", "five", "for", "former",
    "formerly", "forty", "found", "four", "from", "front", "full", "further",
    "get", "give", "go", "had", "has", "hasnt", "have", "he", "hence", "her",
    "here", "hereafter", "hereby", "herein", "hereupon", "hers", "herself",
    "him", "himself", "his", "how", "however", "hundred", "i", "ie", "if",
    "in", "inc", "indeed", "interest", "into", "is", "it", "its", "itself",
    "keep", "last", "latter", "latterly", "least", "less", "ltd", "made",
    "many", "may", "me", "meanwhile", "might", "mill", "mine", "more",
    "moreover", "most", "mostly", "move", "much", "must", "my", "myself",
    "name", "namely", "neither", "never", "nevertheless", "next", "nine",
    "no", "nobody", "none", "noone", "nor", "not", "nothing", "now",
    "nowhere", "of", "off", "often", "on", "once", "one", "only", "onto",
    "or", "other", "others", "otherwise", "our", "ours", "ourselves", "out",
    "over", "own", "part", "per", "perhaps", "please", "put", "rather", "re",
    "same", "see", "seem", "seemed", "seeming", "seems", "serious", "several",
    "she", "should", "show", "side", "since", "sincere", "six", "sixty",
    "so", "some", "somehow", "someone", "something", "sometime", "sometimes",
    "somewhere", "still", "such", "system", "take", "ten", "than", "that",
    "the", "their", "them", "themselves", "then", "thence", "there",
    "thereafter", "thereby", "therefore", "therein", "thereupon", "these",
    "they", "thick", "thin", "third", "this", "those", "though", "three",
    "through", "throughout", "thru", "thus", "to", "together", "too", "top",
    "toward", "towards", "twelve", "twenty", "two", "un", "under", "until",
    "up", "upon", "us", "very", "via", "was", "we", "well", "were", "what",
    "whatever", "when", "whence", "whenever", "where", "whereafter",
    "whereas", "whereby", "wherein", "whereupon", "wherever", "whether",
    "which", "while", "whither", "who", "whoever", "whole", "whom", "whose",
    "why", "will", "with", "within", "without", "would", "yet", "you",
    "your", "yours", "yourself", "yourselves" ]

/-- The vocabulary `TfidfVectorizer(stop_words="english")` builds over a
document list: all tokens minus the stop words, deduplicated.
`fit_transform` raises `ValueError` exactly when this is empty. -/
def buildVocabulary (docs : List String) : List String :=
  (((docs.map sklearnTokenize).flatten).filter
    (fun t => !ENGLISH_STOP_WORDS.contains t)).eraseDups

/-- Lines 140-146 of `app.py`.  The float arithmetic of
`fit_transform`/`cosine_similarity` is the abstract parameter `sim`; the
discrete part — `fit_transform(docs + [query])` raising `ValueError` when
the joint vocabulary is empty, which the `except ValueError` turns into an
empty result — is concrete.  `none` is the raised `ValueError`. -/
def tfidfCosineScores (sim : List String → String → List ℚ)
    (docs : List String) (query : String) : Option (List ℚ) :=
  if buildVocabulary (docs ++ [query]) = [] then none else some (sim docs query)

/-- Line 149 of `app.py`, `filtered_df["Score"] = similarity`: scores attach to the
rows positionally. -/
def zipScores : List (Nat × SBRecord) → List ℚ → List (Nat × SBRecord × ℚ)
  | p :: ps, s :: ss => (p.1, p.2, s) :: zipScores ps ss
  | _, _ => []

/-- Insertion into a score-ascending list: the inserted row goes in front
of rows of equal score. -/
def insertAsc (x : Nat × SBRecord × ℚ) :
    List (Nat × SBRecord × ℚ) → List (Nat × SBRecord × ℚ)
  | [] => [x]
  | y :: ys => if y.2.2 < x.2.2 then y :: insertAsc x ys else x :: y :: ys

/-- Stable ascending argsort over the score column. -/
def insertionSortAsc (l : List (Nat × SBRecord × ℚ)) : List (Nat × SBRecord × ℚ) :=
  l.foldr insertAsc []

/-- Line 153 of `app.py`, `filtered_df.sort_values("Score", ascending=False)`: pandas
`nargsort` reverses the rows, argsorts them ascending (stably), and
reverses the resulting order, so equal scores end up in ascending original
index order. -/
def sort_values_desc (l : List (Nat × SBRecord × ℚ)) : List (Nat × SBRecord × ℚ) :=
  (insertionSortAsc l.reverse).reverse

/-- Lines 123-154 of `app.py`: `search_experiments(df, query, top_n,
assay_filter, organism_filter, min_score)`.  The corpus rows receive their
insertion-order pandas indices (`df.enum`), which pandas preserves through
filtering and sorting; each result row is (index, record, score). -/
def searchDocs (df : List SBRecord) (assay_filter organism_filter : Option String) :
    List String :=
  (applyFacetFilters assay_filter organism_filter df.enum).map (fun p => p.2.summary)

/-- Lines 148-154 of `app.py`: attach the similarity vector as the `Score`
column, drop the rows below the threshold, sort descending and truncate. -/
def rankAndTruncate (rows : List (Nat × SBRecord)) (similarity : List ℚ)
    (min_score : ℚ) (top_n : Nat) : List (Nat × SBRecord × ℚ) :=
  (sort_values_desc ((zipScores rows similarity).filter
    (fun r => decide (min_score ≤ r.2.2)))).take top_n

def search_experiments (sim : List String → String → List ℚ)
    (df : List SBRecord) (query : String) (top_n : Nat)
    (assay_filter organism_filter : Option String) (min_score : ℚ) :
    List (Nat × SBRecord × ℚ) :=
  if (applyFacetFilters assay_filter organism_filter df.enum).isEmpty || query == "" then []
  else if !(searchDocs df assay_filter organism_filter).any (fun d => d != "")
      || (searchDocs df assay_filter organism_filter).length < 1 then []
  else
    match tfidfCosineScores sim (searchDocs df assay_filter organism_filter) query with
    | none => []
    | some similarity =>
      rankAndTruncate (applyFacetFilters assay_filter organism_filter df.enum)
        similarity min_score top_n

/-- A scoring function realizable by the scikit-learn pipeline on corpora
whose documents share no vocabulary with each other or the query: every
document row of the TF-IDF matrix is then a zero vector and
`cosine_similarity` returns exactly 0.0 for it. -/
def simZero : List String → String → List ℚ := fun docs _ => docs.map (fun _ => 0)

/-- A parsed CSV table: a row count and named columns of cells; a `none`
cell is a pandas NaN. -/
structure CsvFrame where
  nrows : Nat
  cols : List (String × List (Option String))
deriving DecidableEq, Repr

/-- Membership test `c in df.columns`. -/
def hasCol (df : CsvFrame) (c : String) : Bool := df.cols.any (fun p => p.1 == c)

/-- Reading `df[c]` (the first column named `c`), `none` when reading it
would raise `KeyError`. -/
def getCol (df : CsvFrame) (c : String) : Option (List (Option String)) :=
  (df.cols.find? (fun p => p.1 == c)).map (fun p => p.2)

/-- Assignment `df[c] = v`: replace the column when present, append it otherwise. -/
def setCol (df : CsvFrame) (c : String) (v : List (Option String)) : CsvFrame :=
  if hasCol df c then
    ⟨df.nrows, df.cols.map (fun p => if p.1 == c then (p.1, v) else p)⟩
  else ⟨df.nrows, df.cols ++ [(c, v)]⟩

/-- Column removal `df.drop(columns=[c])`. -/
def dropCol (df : CsvFrame) (c : String) : CsvFrame :=
  ⟨df.nrows, df.cols.filter (fun p => p.1 != c)⟩

/-- Pandas `Series.fillna(v)`: replace each NaN cell by `v`. -/
def fillna (v : String) (col : List (Option String)) : List (Option String) :=
  col.map (fun x => some (x.getD v))

/-- Line 89 of `app.py`: `df["Assay Name"] = df.get("Assay Name",
pd.Series(["Unknown Assay"] * len(df)))` — the fallback fires only when the
whole column is absent, and no `fillna` is applied to it. -/
def assayStep (df : CsvFrame) : CsvFrame :=
  setCol df "Assay Name"
    ((getCol df "Assay Name").getD (List.replicate df.nrows (some "Unknown Assay")))

/-- Lines 91-95 of `app.py`: take `Organism` from
`Characteristics[Organism]` when that column exists, synthesize a column of
`"Unknown Organism"` when both spellings are absent, and otherwise leave
the existing `Organism` column alone. -/
def organismResolveStep (df : CsvFrame) : CsvFrame :=
  if hasCol df "Characteristics[Organism]" then
    match getCol df "Characteristics[Organism]" with
    | some oCol => setCol df "Organism" oCol
    | none => df
  else if !hasCol df "Organism" then
    setCol df "Organism" (List.replicate df.nrows (some "Unknown Organism"))
  else df

/-- Line 97 of `app.py`: `df["Organism"] = df["Organism"].fillna("Unknown
Organism")` (at this point the column always exists). -/
def organismFillnaStep (df : CsvFrame) : CsvFrame :=
  match getCol df "Organism" with
  | some oCol => setCol df "Organism" (fillna "Unknown Organism" oCol)
  | none => df

/-- Lines 99-100 of `app.py`: drop the characteristics spelling (the second
source guard `"Characteristics[Organism]" != "Organism"` is identically
true). -/
def dropCharacteristicsStep (df : CsvFrame) : CsvFrame :=
  if hasCol df "Characteristics[Organism]" then dropCol df "Characteristics[Organism]"
  else df

/-- Lines 78-102 of `app.py`: `load_metadata` applied to the table the CSV
reader produced.  `df["Summary"].fillna(...)` on a frame without a
`Summary` column raises `KeyError` (line 87); the remaining statements are
the steps above, in source order. -/
def load_metadata (df : CsvFrame) : Except String CsvFrame :=
  match getCol df "Summary" with
  | none => Except.error "KeyError: Summary"
  | some sCol =>
    Except.ok
      (dropCharacteristicsStep
        (organismFillnaStep
          (organismResolveStep
            (assayStep (setCol df "Summary" (fillna "No summary provided." sCol))))))

/-- Word-ness of the character at position `i` of `s` (positions outside the
string are non-word). -/
def wordAt (s : List Char) (i : Nat) : Bool :=
  match s.get? i with
  | some c => isWordChar c
  | none => false

/-- Python's `\b` at position `i` (between `s[i-1]` and `s[i]`): the two
sides differ in word-ness, the string edges counting as non-word. -/
def boundaryAt (s : List Char) (i : Nat) : Bool :=
  (if i = 0 then false else wordAt s (i - 1)) != wordAt s i

/-- Case-insensitive (`re.IGNORECASE`) literal match of the term `t`
against a prefix of `rest` (the terms are `re.escape`-d, hence literal). -/
def matchChars : List Char → List Char → Bool
  | _, [] => true
  | [], _ :: _ => false
  | c :: cs, d :: ds => (c.toLower == d.toLower) && matchChars cs ds

/-- Does the regex fragment `\b t \b` match `s` at position `i`? -/
def matchTermAt (s : List Char) (i : Nat) (t : List Char) : Bool :=
  boundaryAt s i && matchChars (s.drop i) t && boundaryAt s (i + t.length)

/-- The scan of `re.sub` for the pattern `\b(t1|t2|...)\b`: positions are
tried left to right; at a position the alternatives are tried in pattern
order and the first whole-word match wins; the scan resumes right after a
match.  Returned are the matched spans (start, length).  The fuel only
bounds the recursion: `s.length` steps always suffice, since every term is
a nonempty whitespace-free query word. -/
def subMatchesAux (terms : List (List Char)) (s : List Char) :
    Nat → Nat → List (Nat × Nat)
  | 0, _ => []
  | fuel + 1, i =>
    if i < s.length then
      match terms.find? (fun t => matchTermAt s i t) with
      | some t => (i, t.length) :: subMatchesAux terms s fuel (i + t.length)
      | none => subMatchesAux terms s fuel (i + 1)
    else []

/-- All spans `pattern.sub` replaces in `s`. -/
def subMatches (terms : List (List Char)) (s : List Char) : List (Nat × Nat) :=
  subMatchesAux terms s s.length 0

/-- Rebuild the text with `**...**` wrapped around each matched span (the
replacement keeps the matched text's own characters, as the replacer
returns the match itself inside the markers). -/
def applyMarks (s : List Char) : Nat → List (Nat × Nat) → List Char
  | i, [] => s.drop i
  | i, (j, n) :: rest =>
    (s.drop i).take (j - i) ++
      '*' :: '*' :: ((s.drop j).take n ++ '*' :: '*' :: applyMarks s (j + n) rest)

/-- Line 111 of `app.py`: `re.split(r'\s+', query.strip())` with the empty
pieces filtered out, i.e.
the maximal non-whitespace runs of the query. -/
def queryWords (query : String) : List (List Char) :=
  runsBy (fun c => !c.isWhitespace) query.data

/-- Lines 106-121 of `app.py`: `highlight_text(text, query)` — an empty (or
falsy whitespace-only, hence word-less) query annotates nothing; otherwise
every span the pattern scan matched is wrapped. -/
def highlight_text (text query : String) : String :=
  if query == "" then text
  else if (queryWords query).isEmpty then text
  else String.mk (applyMarks text.data 0 (subMatches (queryWords query) text.data))

/-- The persisted nearest-neighbor artifact: a flat inner-product FAISS
index over the embedding rows (the in-place float `faiss.normalize_L2` is
not modelled; nothing below depends on the stored values). -/
inductive IndexArtifact
  | faissFlat (vectors : List (List ℚ))
deriving DecidableEq, Repr

/-- What a run of the build script leaves behind: the written index
artifact, if any, and whether the fallback warning was printed. -/
structure BuildOutcome where
  artifact : Option IndexArtifact
  warned : Bool
deriving DecidableEq, Repr

/-- The module body of `03_build_index_and_save.py`: a missing embeddings
file raises `FileNotFoundError` before the `try`; inside the `try` the
FAISS index is built and written; on any failure there (a failing
`import faiss` included) the `except` prints the warning and does nothing
more — no artifact is written and no substitute index object of any kind is
constructed. -/
def build_index_and_save (embFileExists faissAvailable : Bool)
    (emb : List (List ℚ)) : Except String BuildOutcome :=
  if !embFileExists then Except.error "Embeddings not found. Run step 02 first."
  else if faissAvailable then Except.ok ⟨some (IndexArtifact.faissFlat emb), false⟩
  else Except.ok ⟨none, true⟩

/-- A live pandas DataFrame object: its rows (each with its index) and its
`"Score"` column once one has been assigned. -/
structure PandasDF where
  rows : List (Nat × SBRecord)
  score : Option (List ℚ)
deriving DecidableEq, Repr

/-- A `df.copy()` call: allocate a fresh object on the heap of DataFrame objects,
returning the new heap and the new object's id. -/
def allocDF (st : List PandasDF) (d : PandasDF) : List PandasDF × Nat :=
  (st ++ [d], st.length)

/-- The body of `search_experiments` with its object discipline explicit against a heap
of DataFrame objects: the two `.copy()` calls (lines 126 and 148) allocate,
and `filtered_df["Score"] = similarity` (line 149) mutates the line-148
copy in place.  Boolean-mask indexing returns fresh frames that are never
mutated, so those intermediates stay pure values.  Returns the final heap
alongside the result rows. -/
def search_experiments_state (sim : List String → String → List ℚ)
    (st0 : List PandasDF) (dfId : Nat) (query : String) (top_n : Nat)
    (assay_filter organism_filter : Option String) (min_score : ℚ) :
    List PandasDF × List (Nat × SBRecord × ℚ) :=
  if (applyFacetFilters assay_filter organism_filter (st0.getD dfId ⟨[], none⟩).rows).isEmpty
      || query == "" then
    ((allocDF st0 (st0.getD dfId ⟨[], none⟩)).1, [])
  else if !((applyFacetFilters assay_filter organism_filter
        (st0.getD dfId ⟨[], none⟩).rows).map (fun p => p.2.summary)).any (fun d => d != "")
      || ((applyFacetFilters assay_filter organism_filter
        (st0.getD dfId ⟨[], none⟩).rows).map (fun p => p.2.summary)).length < 1 then
    ((allocDF st0 (st0.getD dfId ⟨[], none⟩)).1, [])
  else
    match tfidfCosineScores sim ((applyFacetFilters assay_filter organism_filter
        (st0.getD dfId ⟨[], none⟩).rows).map (fun p => p.2.summary)) query with
    | none => ((allocDF st0 (st0.getD dfId ⟨[], none⟩)).1, [])
    | some similarity =>
      (((allocDF (allocDF st0 (st0.getD dfId ⟨[], none⟩)).1
            ⟨applyFacetFilters assay_filter organism_filter (st0.getD dfId ⟨[], none⟩).rows,
              none⟩).1).set
          (allocDF (allocDF st0 (st0.getD dfId ⟨[], none⟩)).1
            ⟨applyFacetFilters assay_filter organism_filter (st0.getD dfId ⟨[], none⟩).rows,
              none⟩).2
          ⟨applyFacetFilters assay_filter organism_filter (st0.getD dfId ⟨[], none⟩).rows,
            some similarity⟩,
        rankAndTruncate (applyFacetFilters assay_filter organism_filter
          (st0.getD dfId ⟨[], none⟩).rows) similarity min_score top_n)

theorem bool_not_true {b : Bool} (h : ¬ b = true) : b = false := Bool.eq_false_iff.mpr h

theorem find?_cons_true {α : Type} (p : α → Bool) (a : α) (l : List α) (h : p a = true) :
    (a :: l).find? p = some a := List.find?_cons_of_pos l h

theorem find?_cons_false {α : Type} (p : α → Bool) (a : α) (l : List α) (h : p a = false) :
    (a :: l).find? p = l.find? p :=
  List.find?_cons_of_neg l (by rw [h]; exact Bool.false_ne_true)

theorem filter_cons_true {α : Type} (p : α → Bool) (a : α) (l : List α) (h : p a = true) :
    (a :: l).filter p = a :: l.filter p := List.filter_cons_of_pos h

theorem filter_cons_false {α : Type} (p : α → Bool) (a : α) (l : List α) (h : p a = false) :
    (a :: l).filter p = l.filter p :=
  List.filter_cons_of_neg (by rw [h]; exact Bool.false_ne_true)

theorem getCol_isSome_of_hasCol {df : CsvFrame} {c : String}
    (h : hasCol df c = true) : ∃ v, getCol df c = some v := by
  unfold hasCol at h
  rcases List.any_eq_true.mp h with ⟨q, hq, hqc⟩
  have hs : (df.cols.find? (fun p => p.1 == c)).isSome = true :=
    List.find?_isSome.mpr ⟨q, hq, hqc⟩
  rcases Option.isSome_iff_exists.mp hs with ⟨r, hr⟩
  exact ⟨r.2, by unfold getCol; rw [hr]; rfl⟩

theorem find?_cols_eq_none {cols : List (String × List (Option String))} {c : String}
    (h : ¬ cols.any (fun p => p.1 == c) = true) :
    cols.find? (fun p => p.1 == c) = none := by
  apply List.find?_eq_none.mpr
  intro p hp hc
  exact h (List.any_eq_true.mpr ⟨p, hp, hc⟩)

theorem getCol_eq_none_of_not_hasCol {df : CsvFrame} {c : String}
    (h : hasCol df c = false) : getCol df c = none := by
  unfold getCol
  rw [find?_cols_eq_none (by unfold hasCol at h; rw [h]; exact Bool.false_ne_true)]
  rfl

theorem find?_map_setCol_self (c : String) (v : List (Option String)) :
    ∀ cols : List (String × List (Option String)),
      cols.any (fun p => p.1 == c) = true →
      List.find? (fun p => p.1 == c)
        (cols.map (fun p => if p.1 == c then (p.1, v) else p)) = some (c, v)
  | [], h => by simp at h
  | p :: ps, h => by
    rw [List.map_cons]
    by_cases hp : (p.1 == c) = true
    · have hc : p.1 = c := eq_of_beq hp
      rw [if_pos hp]
      rw [find?_cons_true (fun q => q.1 == c) (p.1, v) _ hp]
      rw [hc]
    · have hps : ps.any (fun q => q.1 == c) = true := by
        rcases List.any_eq_true.mp h with ⟨q, hq, hqc⟩
        rcases List.mem_cons.mp hq with rfl | hq2
        · exact absurd hqc hp
        · exact List.any_eq_true.mpr ⟨q, hq2, hqc⟩
      rw [if_neg hp]
      rw [find?_cons_false (fun q => q.1 == c) p _ (bool_not_true hp)]
      exact find?_map_setCol_self c v ps hps

theorem getCol_setCol_self (df : CsvFrame) (c : String) (v : List (Option String)) :
    getCol (setCol df c v) c = some v := by
  unfold setCol
  by_cases h : hasCol df c = true
  · rw [if_pos h]
    unfold getCol
    rw [find?_map_setCol_self c v df.cols (by unfold hasCol at h; exact h)]
    rfl
  · rw [if_neg h]
    unfold getCol
    show ((df.cols ++ [(c, v)]).find? (fun p => p.1 == c)).map (fun p => p.2) = some v
    rw [List.find?_append, find?_cols_eq_none (by unfold hasCol at h; exact h)]
    rw [find?_cons_true (fun p => p.1 == c) (c, v) [] (beq_self_eq_true c)]
    rfl

theorem find?_map_setCol_ne {c c' : String} (h : c' ≠ c) (v : List (Option String)) :
    ∀ cols : List (String × List (Option String)),
      List.find? (fun p => p.1 == c')
        (cols.map (fun p => if p.1 == c then (p.1, v) else p)) =
      List.find? (fun p => p.1 == c') cols
  | [] => rfl
  | p :: ps => by
    rw [List.map_cons]
    by_cases hp : (p.1 == c) = true
    · have hc : p.1 = c := eq_of_beq hp
      have hb : (p.1 == c') = false :=
        beq_eq_false_iff_ne.mpr (by rw [hc]; exact fun e => h e.symm)
      rw [if_pos hp]
      rw [find?_cons_false (fun q => q.1 == c') (p.1, v) _ hb]
      rw [find?_cons_false (fun q => q.1 == c') p _ hb]
      exact find?_map_setCol_ne h v ps
    · rw [if_neg hp]
      by_cases hq : (p.1 == c') = true
      · rw [find?_cons_true (fun q => q.1 == c') p _ hq]
        rw [find?_cons_true (fun q => q.1 == c') p _ hq]
      · rw [find?_cons_false (fun q => q.1 == c') p _ (bool_not_true hq)]
        rw [find?_cons_false (fun q => q.1 == c') p _ (bool_not_true hq)]
        exact find?_map_setCol_ne h v ps

theorem getCol_setCol_ne {c c' : String} (h : c' ≠ c) (df : CsvFrame)
    (v : List (Option String)) : getCol (setCol df c v) c' = getCol df c' := by
  unfold setCol
  by_cases hc : hasCol df c = true
  · rw [if_pos hc]
    unfold getCol
    rw [find?_map_setCol_ne h v df.cols]
  · rw [if_neg hc]
    unfold getCol
    show ((df.cols ++ [(c, v)]).find? (fun p => p.1 == c')).map (fun p => p.2) =
      (df.cols.find? (fun p => p.1 == c')).map (fun p => p.2)
    rw [List.find?_append]
    have h1 : List.find? (fun p => p.1 == c') [(c, v)] = none := by
      rw [find?_cons_false (fun p => p.1 == c') (c, v) []
        (beq_eq_false_iff_ne.mpr (fun e : c = c' => h e.symm))]
      rfl
    rw [h1]
    cases df.cols.find? (fun p => p.1 == c') <;> rfl

theorem hasCol_setCol_ne {c c' : String} (h : c' ≠ c) (df : CsvFrame)
    (v : List (Option String)) : hasCol (setCol df c v) c' = hasCol df c' := by
  unfold setCol
  by_cases hc : hasCol df c = true
  · rw [if_pos hc]
    unfold hasCol
    show (df.cols.map (fun p => if p.1 == c then (p.1, v) else p)).any
      (fun p => p.1 == c') = df.cols.any (fun p => p.1 == c')
    rw [List.any_map]
    congr 1
    funext p
    by_cases hp : (p.1 == c) = true
    · rw [Function.comp_apply, if_pos hp]
    · rw [Function.comp_apply, if_neg hp]
  · rw [if_neg hc]
    unfold hasCol
    show (df.cols ++ [(c, v)]).any (fun p => p.1 == c') = df.cols.any (fun p => p.1 == c')
    rw [List.any_append]
    show (df.cols.any (fun p => p.1 == c') || ((c == c') || false)) = _
    rw [beq_eq_false_iff_ne.mpr (fun e : c = c' => h e.symm)]
    rw [Bool.or_false, Bool.or_false]

theorem hasCol_setCol_self (df : CsvFrame) (c : String) (v : List (Option String)) :
    hasCol (setCol df c v) c = true := by
  have h1 : getCol (setCol df c v) c = some v := getCol_setCol_self df c v
  unfold getCol at h1
  unfold hasCol
  rcases hf : (setCol df c v).cols.find? (fun p => p.1 == c) with _ | q
  · rw [hf] at h1
    exact absurd h1 (by simp)
  · have hq := List.mem_of_find?_eq_some hf
    have hqc := List.find?_some hf
    exact List.any_eq_true.mpr ⟨q, hq, hqc⟩

theorem nrows_setCol (df : CsvFrame) (c : String) (v : List (Option String)) :
    (setCol df c v).nrows = df.nrows := by
  unfold setCol
  by_cases h : hasCol df c = true
  · rw [if_pos h]
  · rw [if_neg h]

theorem find?_filter_dropCol {c c' : String} (h : c' ≠ c) :
    ∀ cols : List (String × List (Option String)),
      List.find? (fun p => p.1 == c') (cols.filter (fun p => p.1 != c)) =
      List.find? (fun p => p.1 == c') cols
  | [] => rfl
  | p :: ps => by
    by_cases hk : (p.1 != c) = true
    · rw [filter_cons_true (fun q => q.1 != c) p ps hk]
      by_cases hq : (p.1 == c') = true
      · rw [find?_cons_true (fun q => q.1 == c') p _ hq]
        rw [find?_cons_true (fun q => q.1 == c') p _ hq]
      · rw [find?_cons_false (fun q => q.1 == c') p _ (bool_not_true hq)]
        rw [find?_cons_false (fun q => q.1 == c') p _ (bool_not_true hq)]
        exact find?_filter_dropCol h ps
    · have hpc : p.1 = c := by
        have hb := bool_not_true hk
        exact bne_eq_false_iff_eq.mp hb
      have hq : (p.1 == c') = false :=
        beq_eq_false_iff_ne.mpr (by rw [hpc]; exact fun e => h e.symm)
      rw [filter_cons_false (fun q => q.1 != c) p ps (bool_not_true hk)]
      rw [find?_cons_false (fun q => q.1 == c') p _ hq]
      exact find?_filter_dropCol h ps

theorem getCol_dropCol_ne {c c' : String} (h : c' ≠ c) (df : CsvFrame) :
    getCol (dropCol df c) c' = getCol df c' := by
  unfold dropCol getCol
  show ((df.cols.filter (fun p => p.1 != c)).find? (fun p => p.1 == c')).map (fun p => p.2) =
    (df.cols.find? (fun p => p.1 == c')).map (fun p => p.2)
  rw [find?_filter_dropCol h df.cols]

theorem mem_fillna_isSome (v : String) (col : List (Option String)) :
    ∀ x ∈ fillna v col, x.isSome = true := by
  intro x hx
  rcases List.mem_map.mp hx with ⟨y, _, rfl⟩
  rfl

theorem fillna_replicate_some (v u : String) (n : Nat) :
    fillna v (List.replicate n (some u)) = List.replicate n (some u) := by
  unfold fillna
  rw [List.map_replicate]
  rfl

theorem assayStep_absent {df : CsvFrame} (h : hasCol df "Assay Name" = false) :
    assayStep df = setCol df "Assay Name" (List.replicate df.nrows (some "Unknown Assay")) := by
  unfold assayStep
  rw [getCol_eq_none_of_not_hasCol h]
  rfl

theorem getCol_assayStep_ne {c' : String} (h : c' ≠ "Assay Name") (df : CsvFrame) :
    getCol (assayStep df) c' = getCol df c' := getCol_setCol_ne h df _

theorem hasCol_assayStep_ne {c' : String} (h : c' ≠ "Assay Name") (df : CsvFrame) :
    hasCol (assayStep df) c' = hasCol df c' := hasCol_setCol_ne h df _

theorem nrows_assayStep (df : CsvFrame) : (assayStep df).nrows = df.nrows :=
  nrows_setCol df _ _

theorem organismResolveStep_absent {df : CsvFrame}
    (h1 : hasCol df "Characteristics[Organism]" = false)
    (h2 : hasCol df "Organism" = false) :
    organismResolveStep df =
      setCol df "Organism" (List.replicate df.nrows (some "Unknown Organism")) := by
  unfold organismResolveStep
  rw [if_neg (by rw [h1]; exact Bool.false_ne_true)]
  rw [if_pos (by rw [h2]; rfl)]

theorem getCol_organismResolveStep_ne {c' : String} (h : c' ≠ "Organism") (df : CsvFrame) :
    getCol (organismResolveStep df) c' = getCol df c' := by
  unfold organismResolveStep
  by_cases h1 : hasCol df "Characteristics[Organism]" = true
  · rw [if_pos h1]
    rcases getCol df "Characteristics[Organism]" with _ | oCol
    · rfl
    · exact getCol_setCol_ne h df oCol
  · rw [if_neg h1]
    by_cases h2 : (!hasCol df "Organism") = true
    · rw [if_pos h2]
      exact getCol_setCol_ne h df _
    · rw [if_neg h2]

theorem getCol_organismFillnaStep_eq (df : CsvFrame) :
    getCol (organismFillnaStep df) "Organism" =
      (getCol df "Organism").map (fillna "Unknown Organism") := by
  unfold organismFillnaStep
  rcases h : getCol df "Organism" with _ | oCol
  · rw [h]
    rfl
  · show getCol (setCol df "Organism" (fillna "Unknown Organism" oCol)) "Organism" =
      Option.map (fillna "Unknown Organism") (some oCol)
    rw [getCol_setCol_self]
    rfl

theorem getCol_organismFillnaStep_ne {c' : String} (h : c' ≠ "Organism") (df : CsvFrame) :
    getCol (organismFillnaStep df) c' = getCol df c' := by
  unfold organismFillnaStep
  rcases getCol df "Organism" with _ | oCol
  · rfl
  · exact getCol_setCol_ne h df _

theorem getCol_dropCharacteristicsStep_ne {c' : String}
    (h : c' ≠ "Characteristics[Organism]") (df : CsvFrame) :
    getCol (dropCharacteristicsStep df) c' = getCol df c' := by
  unfold dropCharacteristicsStep
  by_cases h1 : hasCol df "Characteristics[Organism]" = true
  · rw [if_pos h1]
    exact getCol_dropCol_ne h df
  · rw [if_neg h1]

/-- C2 (amended): loading never fails because the assay-name or organism
column is absent — those are synthesized with their default sentinel values
at load time — but a table lacking the summary column makes the load raise
`KeyError` rather than synthesizing a placeholder summary column. -/
theorem load_metadata_synthesizes_missing_facets (df : CsvFrame)
    (h : hasCol df "Summary" = true) :
    ∃ df2, load_metadata df = Except.ok df2 ∧
      (hasCol df "Assay Name" = false →
        getCol df2 "Assay Name" = some (List.replicate df.nrows (some "Unknown Assay"))) ∧
      (hasCol df "Characteristics[Organism]" = false → hasCol df "Organism" = false →
        getCol df2 "Organism" = some (List.replicate df.nrows (some "Unknown Organism"))) := by
  rcases getCol_isSome_of_hasCol h with ⟨sCol, hs⟩
  refine ⟨dropCharacteristicsStep (organismFillnaStep (organismResolveStep
    (assayStep (setCol df "Summary" (fillna "No summary provided." sCol))))),
    by unfold load_metadata; rw [hs], ?_, ?_⟩
  · intro ha
    have h0 : hasCol (setCol df "Summary" (fillna "No summary provided." sCol))
        "Assay Name" = false := by
      rw [hasCol_setCol_ne (by decide) df _]
      exact ha
    rw [getCol_dropCharacteristicsStep_ne (by decide)]
    rw [getCol_organismFillnaStep_ne (by decide)]
    rw [getCol_organismResolveStep_ne (by decide)]
    rw [assayStep_absent h0]
    rw [getCol_setCol_self]
    rw [nrows_setCol]
  · intro hc ho
    have hc0 : hasCol (setCol df "Summary" (fillna "No summary provided." sCol))
        "Characteristics[Organism]" = false := by
      rw [hasCol_setCol_ne (by decide) df _]
      exact hc
    have ho0 : hasCol (setCol df "Summary" (fillna "No summary provided." sCol))
        "Organism" = false := by
      rw [hasCol_setCol_ne (by decide) df _]
      exact ho
    have hc1 : hasCol (assayStep (setCol df "Summary" (fillna "No summary provided." sCol)))
        "Characteristics[Organism]" = false := by
      rw [hasCol_assayStep_ne (by decide)]
      exact hc0
    have ho1 : hasCol (assayStep (setCol df "Summary" (fillna "No summary provided." sCol)))
        "Organism" = false := by
      rw [hasCol_assayStep_ne (by decide)]
      exact ho0
    rw [getCol_dropCharacteristicsStep_ne (by decide)]
    rw [organismResolveStep_absent hc1 ho1]
    rw [getCol_organismFillnaStep_eq]
    rw [getCol_setCol_self]
    rw [Option.map_some']
    rw [fillna_replicate_some]
    rw [nrows_assayStep, nrows_setCol]

/-- C2 counterexample: a readable table that lacks the `Summary` column
makes `load_metadata` raise `KeyError` instead of synthesizing a
placeholder summary column. -/
theorem load_metadata_missing_summary_raises :
    load_metadata ⟨1, [("Assay Name", [some "RNA-Seq"]), ("Organism", [some "Mouse"])]⟩ =
      Except.error "KeyError: Summary" := rfl

theorem load_metadata_synthesizes_missing_facets_witness :
    ∃ df2, load_metadata ⟨2, [("Summary", [some "s", none])]⟩ = Except.ok df2 ∧
      (hasCol ⟨2, [("Summary", [some "s", none])]⟩ "Assay Name" = false →
        getCol df2 "Assay Name" = some (List.replicate 2 (some "Unknown Assay"))) ∧
      (hasCol ⟨2, [("Summary", [some "s", none])]⟩ "Characteristics[Organism]" = false →
        hasCol ⟨2, [("Summary", [some "s", none])]⟩ "Organism" = false →
        getCol df2 "Organism" = some (List.replicate 2 (some "Unknown Organism"))) :=
  load_metadata_synthesizes_missing_facets ⟨2, [("Summary", [some "s", none])]⟩ rfl

/-- C3 (amended): in every loaded corpus the summary and organism fields
are non-null (their NaN cells are filled with the placeholder and sentinel
values), and the assay-name field is non-null whenever the source table had
no assay column at all; but a NaN cell inside an existing assay column
survives the load, so assay fields can be null downstream. -/
theorem load_metadata_nonnull_fields (df df2 : CsvFrame)
    (h : load_metadata df = Except.ok df2) :
    (∀ col, getCol df2 "Summary" = some col → ∀ x ∈ col, x.isSome = true) ∧
    (∀ col, getCol df2 "Organism" = some col → ∀ x ∈ col, x.isSome = true) ∧
    (hasCol df "Assay Name" = false →
      ∀ col, getCol df2 "Assay Name" = some col → ∀ x ∈ col, x.isSome = true) := by
  unfold load_metadata at h
  rcases hs : getCol df "Summary" with _ | sCol
  · rw [hs] at h
    exact absurd h (by simp)
  · rw [hs] at h
    have hdf2 : df2 = dropCharacteristicsStep (organismFillnaStep (organismResolveStep
        (assayStep (setCol df "Summary" (fillna "No summary provided." sCol))))) := by
      injection h with h2
      exact h2.symm
    subst hdf2
    refine ⟨?_, ?_, ?_⟩
    · intro col hcol x hx
      rw [getCol_dropCharacteristicsStep_ne (by decide)] at hcol
      rw [getCol_organismFillnaStep_ne (by decide)] at hcol
      rw [getCol_organismResolveStep_ne (by decide)] at hcol
      rw [getCol_assayStep_ne (by decide)] at hcol
      rw [getCol_setCol_self] at hcol
      injection hcol with e
      rw [← e] at hx
      exact mem_fillna_isSome _ _ x hx
    · intro col hcol x hx
      rw [getCol_dropCharacteristicsStep_ne (by decide)] at hcol
      rw [getCol_organismFillnaStep_eq] at hcol
      rcases h2 : getCol (organismResolveStep (assayStep
          (setCol df "Summary" (fillna "No summary provided." sCol)))) "Organism" with _ | oCol
      · rw [h2] at hcol
        exact absurd hcol (by simp)
      · rw [h2, Option.map_some'] at hcol
        injection hcol with e
        rw [← e] at hx
        exact mem_fillna_isSome _ _ x hx
    · intro ha col hcol x hx
      have h0 : hasCol (setCol df "Summary" (fillna "No summary provided." sCol))
          "Assay Name" = false := by
        rw [hasCol_setCol_ne (by decide) df _]
        exact ha
      rw [getCol_dropCharacteristicsStep_ne (by decide)] at hcol
      rw [getCol_organismFillnaStep_ne (by decide)] at hcol
      rw [getCol_organismResolveStep_ne (by decide)] at hcol
      rw [assayStep_absent h0] at hcol
      rw [getCol_setCol_self] at hcol
      injection hcol with e
      rw [← e] at hx
      have := List.eq_of_mem_replicate hx
      rw [this]
      rfl

/-- C3 counterexample: a table whose existing `Assay Name` column holds a
NaN cell loads successfully, and the null assay cell survives into the
returned corpus. -/
theorem load_metadata_null_assay_cell_persists :
    load_metadata
        ⟨1, [("Summary", [some "s"]), ("Assay Name", [none]), ("Organism", [some "Mouse"])]⟩ =
      Except.ok
        ⟨1, [("Summary", [some "s"]), ("Assay Name", [none]), ("Organism", [some "Mouse"])]⟩ ∧
    getCol ⟨1, [("Summary", [some "s"]), ("Assay Name", [none]), ("Organism", [some "Mouse"])]⟩
        "Assay Name" = some [none] :=
  ⟨rfl, rfl⟩

theorem load_metadata_nonnull_fields_witness :
    (Option.some "No summary provided.").isSome = true :=
  (load_metadata_nonnull_fields ⟨1, [("Summary", [none])]⟩
      ⟨1, [("Summary", [some "No summary provided."]), ("Assay Name", [some "Unknown Assay"]),
        ("Organism", [some "Unknown Organism"])]⟩ rfl).1
    [some "No summary provided."] rfl (some "No summary provided.")
    (List.mem_singleton_self _)

/-- C8: with the embeddings present but the FAISS backend unavailable, the
build script completes without a caller-visible failure, yet — contrary to
its own "Using numpy fallback" message — it constructs no substitute index
of any kind: no query-time index artifact exists after the run. -/
theorem build_index_no_fallback_artifact :
    build_index_and_save true false [[1]] = Except.ok ⟨none, true⟩ := rfl



theorem assayFilterStage_sublist : ∀ (af : Option String) (l : List (Nat × SBRecord)),
    List.Sublist (assayFilterStage af l) l
  | none, l => List.Sublist.refl l
  | some a, l => by
    show List.Sublist
      (if a != "" && a != "All" then l.filter (fun p => p.2.assay == some a) else l) l
    by_cases ha : (a != "" && a != "All") = true
    · rw [if_pos ha]
      exact List.filter_sublist l
    · rw [if_neg ha]

theorem organismFilterStage_sublist : ∀ (og : Option String) (l : List (Nat × SBRecord)),
    List.Sublist (organismFilterStage og l) l
  | none, l => List.Sublist.refl l
  | some o, l => by
    show List.Sublist
      (if o != "" && o != "All" then l.filter (fun p => p.2.organism == some o) else l) l
    by_cases ho : (o != "" && o != "All") = true
    · rw [if_pos ho]
      exact List.filter_sublist l
    · rw [if_neg ho]

theorem applyFacetFilters_sublist (af og : Option String) (l : List (Nat × SBRecord)) :
    List.Sublist (applyFacetFilters af og l) l :=
  (organismFilterStage_sublist og _).trans (assayFilterStage_sublist af l)

theorem zipScores_length_le : ∀ (l : List (Nat × SBRecord)) (s : List ℚ),
    (zipScores l s).length ≤ l.length
  | [], _ => Nat.zero_le _
  | _ :: _, [] => Nat.zero_le _
  | p :: ps, q :: qs => by
    show (zipScores ps qs).length + 1 ≤ ps.length + 1
    exact Nat.succ_le_succ (zipScores_length_le ps qs)

theorem mem_zipScores : ∀ {l : List (Nat × SBRecord)} {s : List ℚ}
    {r : Nat × SBRecord × ℚ}, r ∈ zipScores l s → (r.1, r.2.1) ∈ l := by
  intro l
  induction l with
  | nil =>
    intro s r h
    exact absurd h (by cases s <;> exact List.not_mem_nil r)
  | cons p ps ih =>
    intro s r h
    cases s with
    | nil => exact absurd h (List.not_mem_nil r)
    | cons q qs =>
      rcases List.mem_cons.mp h with rfl | h2
      · exact List.mem_cons_self _ _
      · exact List.mem_cons_of_mem _ (ih h2)


theorem mem_insertAsc {x y : Nat × SBRecord × ℚ} :
    ∀ {l : List (Nat × SBRecord × ℚ)}, y ∈ insertAsc x l → y = x ∨ y ∈ l
  | [], h => Or.inl (List.mem_singleton.mp h)
  | z :: zs, h => by
    unfold insertAsc at h
    by_cases hz : z.2.2 < x.2.2
    · rw [if_pos hz] at h
      rcases List.mem_cons.mp h with rfl | h2
      · exact Or.inr (List.mem_cons_self _ _)
      · rcases mem_insertAsc h2 with rfl | h3
        · exact Or.inl rfl
        · exact Or.inr (List.mem_cons_of_mem _ h3)
    · rw [if_neg hz] at h
      rcases List.mem_cons.mp h with rfl | h2
      · exact Or.inl rfl
      · exact Or.inr h2

theorem length_insertAsc (x : Nat × SBRecord × ℚ) :
    ∀ l : List (Nat × SBRecord × ℚ), (insertAsc x l).length = l.length + 1
  | [] => rfl
  | z :: zs => by
    unfold insertAsc
    by_cases hz : z.2.2 < x.2.2
    · rw [if_pos hz]
      show (insertAsc x zs).length + 1 = zs.length + 1 + 1
      rw [length_insertAsc x zs]
    · rw [if_neg hz]
      rfl

theorem length_insertionSortAsc (l : List (Nat × SBRecord × ℚ)) :
    (insertionSortAsc l).length = l.length := by
  induction l with
  | nil => rfl
  | cons x xs ih =>
    show (insertAsc x (insertionSortAsc xs)).length = xs.length + 1
    rw [length_insertAsc, ih]

theorem mem_insertionSortAsc {y : Nat × SBRecord × ℚ} :
    ∀ {l : List (Nat × SBRecord × ℚ)}, y ∈ insertionSortAsc l → y ∈ l := by
  intro l
  induction l with
  | nil => intro h; exact absurd h (List.not_mem_nil y)
  | cons x xs ih =>
    intro h
    rcases mem_insertAsc (show y ∈ insertAsc x (insertionSortAsc xs) from h) with rfl | h3
    · exact List.mem_cons_self _ _
    · exact List.mem_cons_of_mem _ (ih h3)

theorem length_sort_values_desc (l : List (Nat × SBRecord × ℚ)) :
    (sort_values_desc l).length = l.length := by
  unfold sort_values_desc
  rw [List.length_reverse, length_insertionSortAsc, List.length_reverse]

theorem mem_sort_values_desc {y : Nat × SBRecord × ℚ} {l : List (Nat × SBRecord × ℚ)}
    (h : y ∈ sort_values_desc l) : y ∈ l := by
  unfold sort_values_desc at h
  exact List.mem_reverse.mp (mem_insertionSortAsc (List.mem_reverse.mp h))




theorem mem_search_mem_filtered {sim : List String → String → List ℚ}
    {df : List SBRecord} {query : String} {top_n : Nat}
    {assay_filter organism_filter : Option String} {min_score : ℚ}
    {r : Nat × SBRecord × ℚ}
    (h : r ∈ search_experiments sim df query top_n assay_filter organism_filter min_score) :
    (r.1, r.2.1) ∈ applyFacetFilters assay_filter organism_filter df.enum ∧
      min_score ≤ r.2.2 := by
  unfold search_experiments at h
  split at h
  · exact absurd h (List.not_mem_nil r)
  · split at h
    · exact absurd h (List.not_mem_nil r)
    · split at h
      · exact absurd h (List.not_mem_nil r)
      · unfold rankAndTruncate at h
        have h2 := mem_sort_values_desc (List.take_subset _ _ h)
        have h3 := List.mem_filter.mp h2
        exact ⟨mem_zipScores h3.1, of_decide_eq_true h3.2⟩



/-- C4: the result list is never longer than the requested limit nor than
the facet-filtered corpus, and every returned score is at least the
requested minimum threshold. -/
theorem search_length_and_threshold (sim : List String → String → List ℚ)
    (df : List SBRecord) (query : String) (top_n : Nat)
    (assay_filter organism_filter : Option String) (min_score : ℚ) :
    (search_experiments sim df query top_n assay_filter organism_filter min_score).length ≤
      min top_n (applyFacetFilters assay_filter organism_filter df.enum).length ∧
    ∀ r ∈ search_experiments sim df query top_n assay_filter organism_filter min_score,
      min_score ≤ r.2.2 := by
  refine ⟨?_, fun r hr => (mem_search_mem_filtered hr).2⟩
  unfold search_experiments
  split
  · exact Nat.zero_le _
  · split
    · exact Nat.zero_le _
    · rcases tfidfCosineScores sim (searchDocs df assay_filter organism_filter) query
          with _ | similarity
      · exact Nat.zero_le _
      · show (rankAndTruncate (applyFacetFilters assay_filter organism_filter df.enum)
            similarity min_score top_n).length ≤ _
        unfold rankAndTruncate
        rw [List.length_take]
        refine min_le_min (le_refl top_n) ?_
        rw [length_sort_values_desc]
        exact le_trans (List.length_filter_le _ _) (zipScores_length_le _ _)

theorem mem_assayFilterStage_assay {a : String} (ha : a ≠ "") (ha2 : a ≠ "All")
    {l : List (Nat × SBRecord)} {p : Nat × SBRecord}
    (h : p ∈ assayFilterStage (some a) l) : p.2.assay = some a := by
  have h2 : p ∈ l.filter (fun q => q.2.assay == some a) := by
    have hcond : (a != "" && a != "All") = true := by
      rw [bne_iff_ne.mpr ha, bne_iff_ne.mpr ha2]
      rfl
    have he : assayFilterStage (some a) l = l.filter (fun q => q.2.assay == some a) := by
      show (if a != "" && a != "All" then l.filter (fun q => q.2.assay == some a) else l) = _
      rw [if_pos hcond]
    rw [he] at h
    exact h
  exact eq_of_beq (List.mem_filter.mp h2).2

theorem mem_organismFilterStage_organism {o : String} (ho : o ≠ "") (ho2 : o ≠ "All")
    {l : List (Nat × SBRecord)} {p : Nat × SBRecord}
    (h : p ∈ organismFilterStage (some o) l) : p.2.organism = some o := by
  have h2 : p ∈ l.filter (fun q => q.2.organism == some o) := by
    have hcond : (o != "" && o != "All") = true := by
      rw [bne_iff_ne.mpr ho, bne_iff_ne.mpr ho2]
      rfl
    have he : organismFilterStage (some o) l = l.filter (fun q => q.2.organism == some o) := by
      show (if o != "" && o != "All" then l.filter (fun q => q.2.organism == some o) else l) = _
      rw [if_pos hcond]
    rw [he] at h
    exact h
  exact eq_of_beq (List.mem_filter.mp h2).2

/-- C5: facet filtering is an exact-match conjunction — with a set assay
filter every returned record's assay field equals it, with a set organism
filter every returned record's organism field equals it, and an unset
(`None`) or `"All"` predicate passes every record unchanged. -/
theorem search_facet_filters_exact (sim : List String → String → List ℚ)
    (df : List SBRecord) (query : String) (top_n : Nat) (min_score : ℚ) :
    (∀ a : String, a ≠ "" → a ≠ "All" → ∀ organism_filter : Option String,
      ∀ r ∈ search_experiments sim df query top_n (some a) organism_filter min_score,
        r.2.1.assay = some a) ∧
    (∀ o : String, o ≠ "" → o ≠ "All" → ∀ assay_filter : Option String,
      ∀ r ∈ search_experiments sim df query top_n assay_filter (some o) min_score,
        r.2.1.organism = some o) ∧
    (∀ rows : List (Nat × SBRecord), applyFacetFilters none none rows = rows) ∧
    (∀ rows : List (Nat × SBRecord),
      applyFacetFilters (some "All") (some "All") rows = rows) := by
  refine ⟨?_, ?_, fun rows => rfl, fun rows => rfl⟩
  · intro a ha ha2 organism_filter r hr
    have h1 := (mem_search_mem_filtered hr).1
    have h2 : (r.1, r.2.1) ∈ assayFilterStage (some a) df.enum :=
      (organismFilterStage_sublist organism_filter _).subset h1
    exact mem_assayFilterStage_assay ha ha2 h2
  · intro o ho ho2 assay_filter r hr
    have h1 := (mem_search_mem_filtered hr).1
    exact mem_organismFilterStage_organism ho ho2 h1

/-- C6: search returns an empty result list, raising nothing, whenever the
facet-filtered record set is empty or the query text is empty; in
particular an empty query yields an empty result list regardless of
filters and corpus size. -/
theorem search_empty_cases (sim : List String → String → List ℚ)
    (df : List SBRecord) (query : String) (top_n : Nat)
    (assay_filter organism_filter : Option String) (min_score : ℚ)
    (h : applyFacetFilters assay_filter organism_filter df.enum = [] ∨ query = "") :
    search_experiments sim df query top_n assay_filter organism_filter min_score = [] := by
  unfold search_experiments
  have hc : ((applyFacetFilters assay_filter organism_filter df.enum).isEmpty
      || (query == "")) = true := by
    rcases h with h1 | h1
    · rw [List.isEmpty_iff.mpr h1]
      rfl
    · rw [h1]
      rw [show (("" : String) == "") = true from rfl, Bool.or_true]
  rw [if_pos hc]

theorem search_empty_cases_witness :
    search_experiments simZero [⟨"bone density", some "RNA-Seq", some "Mouse"⟩] "" 5
      none none 0 = [] :=
  search_empty_cases simZero [⟨"bone density", some "RNA-Seq", some "Mouse"⟩] "" 5
    none none 0 (Or.inr rfl)

/-- C7 (amended): search returns an empty result list, with no fault
propagated, whenever the joint vocabulary of the filtered documents plus
the query is empty after stop-word removal, and likewise when every
filtered document is the empty string.  (When only the documents' own
vocabulary is empty but the query contributes a term, scikit-learn raises
no `ValueError`, the documents all score exactly 0.0, and they are
returned whenever the threshold does not exceed 0 — see the
counterexample.) -/
theorem search_empty_vocabulary_empty (sim : List String → String → List ℚ)
    (df : List SBRecord) (query : String) (top_n : Nat)
    (assay_filter organism_filter : Option String) (min_score : ℚ)
    (h : buildVocabulary (searchDocs df assay_filter organism_filter ++ [query]) = [] ∨
      ∀ d ∈ searchDocs df assay_filter organism_filter, d = "") :
    search_experiments sim df query top_n assay_filter organism_filter min_score = [] := by
  unfold search_experiments
  split
  · rfl
  · split
    · rfl
    · rename_i hc1 hc2
      rcases h with hv | hd
      · rw [show tfidfCosineScores sim (searchDocs df assay_filter organism_filter) query
            = none from by unfold tfidfCosineScores; rw [if_pos hv]]
      · exfalso
        by_cases hany : ((searchDocs df assay_filter organism_filter).any
            (fun d => d != "")) = true
        · rcases List.any_eq_true.mp hany with ⟨d, hdm, hdne⟩
          exact bne_iff_ne.mp hdne (hd d hdm)
        · refine hc2 ?_
          rw [bool_not_true hany]
          rfl

theorem search_empty_vocabulary_empty_witness :
    search_experiments simZero [⟨"", some "RNA-Seq", some "Mouse"⟩] "bone" 10
      none none 0 = [] :=
  search_empty_vocabulary_empty simZero [⟨"", some "RNA-Seq", some "Mouse"⟩] "bone" 10
    none none 0 (Or.inr (by decide))

/-- C7 counterexample: over the one-document corpus whose summary is "the"
— a document set with empty vocabulary after stop-word removal — the
query "bone" contributes vocabulary of its own, so vectorization raises no
fault, the document's zero score passes the 0.0 threshold, and search
returns a non-empty result list instead of an empty one. -/
theorem search_stopword_docs_nonempty_result :
    buildVocabulary ["the"] = [] ∧
    search_experiments simZero [⟨"the", some "RNA-Seq", some "Mouse"⟩] "bone" 10
        none none 0 =
      [(0, ⟨"the", some "RNA-Seq", some "Mouse"⟩, 0)] :=
  ⟨by decide, by decide⟩

theorem matchChars_length_le : ∀ {rest t : List Char},
    matchChars rest t = true → t.length ≤ rest.length
  | _, [], _ => Nat.zero_le _
  | [], _ :: _, h => absurd h (by rw [show matchChars [] (_ :: _) = false from rfl]; exact Bool.false_ne_true)
  | c :: cs, d :: ds, h => by
    have h2 : matchChars cs ds = true := by
      cases hx : matchChars cs ds
      · rw [show matchChars (c :: cs) (d :: ds) =
            ((c.toLower == d.toLower) && matchChars cs ds) from rfl, hx, Bool.and_false] at h
        exact absurd h Bool.false_ne_true
      · rfl
    exact Nat.succ_le_succ (matchChars_length_le h2)

theorem matchTermAt_bounds {s t : List Char} {j : Nat} (ht : t ≠ [])
    (h : matchTermAt s j t = true) : j < s.length ∧ j + t.length ≤ s.length := by
  unfold matchTermAt at h
  have hmc : matchChars (s.drop j) t = true := by
    cases hx : matchChars (s.drop j) t
    · rw [hx, Bool.and_false, Bool.false_and] at h
      exact absurd h Bool.false_ne_true
    · rfl
  have h2 := matchChars_length_le hmc
  rw [List.length_drop] at h2
  have ht2 : 1 ≤ t.length := by
    cases t
    · exact absurd rfl ht
    · exact Nat.succ_le_succ (Nat.zero_le _)
  omega

theorem runsByAux_ne_nil (p : Char → Bool) :
    ∀ (l acc w : List Char), w ∈ runsByAux p l acc → w ≠ [] := by
  intro l
  induction l with
  | nil =>
    intro acc w hw
    unfold runsByAux at hw
    split at hw
    · exact absurd hw (List.not_mem_nil w)
    · rename_i ha
      rw [List.mem_singleton.mp hw]
      intro he
      exact ha (by rw [List.reverse_eq_nil_iff.mp he]; rfl)
  | cons c cs ih =>
    intro acc w hw
    unfold runsByAux at hw
    split at hw
    · exact ih (c :: acc) w hw
    · split at hw
      · exact ih [] w hw
      · rename_i hpc ha
        rcases List.mem_cons.mp hw with rfl | h2
        · intro he
          exact ha (by rw [List.reverse_eq_nil_iff.mp he]; rfl)
        · exact ih [] w h2

theorem queryWords_ne_nil (query : String) : ∀ t ∈ queryWords query, t ≠ [] := by
  intro t ht
  exact runsByAux_ne_nil _ _ _ t ht

theorem subMatchesAux_mem_ge (terms : List (List Char)) (s : List Char) :
    ∀ (fuel i : Nat) (q : Nat × Nat), q ∈ subMatchesAux terms s fuel i → i ≤ q.1 := by
  intro fuel
  induction fuel with
  | zero =>
    intro i q hq
    exact absurd hq (List.not_mem_nil q)
  | succ fuel ih =>
    intro i q hq
    unfold subMatchesAux at hq
    split at hq
    · rcases hf : terms.find? (fun t => matchTermAt s i t) with _ | t
      · rw [hf] at hq
        have := ih (i + 1) q hq
        omega
      · rw [hf] at hq
        rcases List.mem_cons.mp hq with rfl | h2
        · exact le_refl _
        · have := ih (i + t.length) q h2
          omega
    · exact absurd hq (List.not_mem_nil q)

theorem subMatchesAux_sound (terms : List (List Char)) (s : List Char) :
    ∀ (fuel i : Nat) (q : Nat × Nat), q ∈ subMatchesAux terms s fuel i →
      ∃ t ∈ terms, q.2 = t.length ∧ matchTermAt s q.1 t = true := by
  intro fuel
  induction fuel with
  | zero =>
    intro i q hq
    exact absurd hq (List.not_mem_nil q)
  | succ fuel ih =>
    intro i q hq
    unfold subMatchesAux at hq
    split at hq
    · rcases hf : terms.find? (fun t => matchTermAt s i t) with _ | t
      · rw [hf] at hq
        exact ih (i + 1) q hq
      · rw [hf] at hq
        rcases List.mem_cons.mp hq with rfl | h2
        · exact ⟨t, List.mem_of_find?_eq_some hf, rfl, List.find?_some hf⟩
        · exact ih (i + t.length) q h2
    · exact absurd hq (List.not_mem_nil q)

theorem subMatchesAux_pairwise (terms : List (List Char)) (s : List Char) :
    ∀ (fuel i : Nat),
      List.Pairwise (fun q r => q.1 + q.2 ≤ r.1) (subMatchesAux terms s fuel i) := by
  intro fuel
  induction fuel with
  | zero => intro i; exact List.Pairwise.nil
  | succ fuel ih =>
    intro i
    unfold subMatchesAux
    split
    · rcases hf : terms.find? (fun t => matchTermAt s i t) with _ | t
      · exact ih (i + 1)
      · refine List.Pairwise.cons ?_ (ih (i + t.length))
        intro q hq
        exact subMatchesAux_mem_ge terms s fuel (i + t.length) q hq
    · exact List.Pairwise.nil

theorem subMatchesAux_covers (terms : List (List Char)) (s : List Char)
    (hne : ∀ t ∈ terms, t ≠ []) :
    ∀ (fuel i j : Nat) (t : List Char), t ∈ terms → matchTermAt s j t = true →
      i ≤ j → s.length ≤ i + fuel →
      ∃ q ∈ subMatchesAux terms s fuel i, q.1 ≤ j ∧ j < q.1 + q.2 := by
  intro fuel
  induction fuel with
  | zero =>
    intro i j t ht hm hij hfuel
    exfalso
    have hb := (matchTermAt_bounds (hne t ht) hm).1
    omega
  | succ fuel ih =>
    intro i j t ht hm hij hfuel
    have hb := (matchTermAt_bounds (hne t ht) hm).1
    have hi : i < s.length := by omega
    unfold subMatchesAux
    rw [if_pos hi]
    rcases hf : terms.find? (fun t2 => matchTermAt s i t2) with _ | t2
    · have hij2 : i ≠ j := by
        intro he
        subst he
        exact List.find?_eq_none.mp hf t ht hm
      obtain ⟨q, hq, hq2⟩ := ih (i + 1) j t ht hm (by omega) (by omega)
      exact ⟨q, hq, hq2⟩
    · have ht2 : t2 ∈ terms := List.mem_of_find?_eq_some hf
      have ht2len : 1 ≤ t2.length := by
        cases ht2e : t2
        · exact absurd ht2e (hne t2 ht2)
        · exact Nat.succ_le_succ (Nat.zero_le _)
      by_cases hcase : j < i + t2.length
      · exact ⟨(i, t2.length), List.mem_cons_self _ _, hij, hcase⟩
      · obtain ⟨q, hq, hq2⟩ := ih (i + t2.length) j t ht hm (by omega) (by omega)
        exact ⟨q, List.mem_cons_of_mem _ hq, hq2⟩

/-- C9 (amended): highlighting wraps whole-word, case-insensitive
occurrences of the whitespace-separated query terms found by a single
left-to-right scan — every wrapped span is such an occurrence of some
term, the wrapped spans are pairwise disjoint and in order (so markers
never nest), and every whole-word occurrence of every term starts inside
some wrapped span; an occurrence can itself go unwrapped only by
overlapping the span of an earlier match (see the counterexample).  An
empty or word-less query returns the text unchanged. -/
theorem highlight_spans_spec (text query : String) :
    (∀ q ∈ subMatches (queryWords query) text.data,
      ∃ t ∈ queryWords query, q.2 = t.length ∧ matchTermAt text.data q.1 t = true) ∧
    List.Pairwise (fun q r => q.1 + q.2 ≤ r.1) (subMatches (queryWords query) text.data) ∧
    (∀ (j : Nat) (t : List Char), t ∈ queryWords query → matchTermAt text.data j t = true →
      ∃ q ∈ subMatches (queryWords query) text.data, q.1 ≤ j ∧ j < q.1 + q.2) ∧
    (query = "" → highlight_text text query = text) ∧
    (queryWords query = [] → highlight_text text query = text) := by
  refine ⟨?_, ?_, ?_, ?_, ?_⟩
  · intro q hq
    exact subMatchesAux_sound _ _ _ 0 q hq
  · exact subMatchesAux_pairwise _ _ _ 0
  · intro j t ht hm
    exact subMatchesAux_covers (queryWords query) text.data (queryWords_ne_nil query)
      text.data.length 0 j t ht hm (Nat.zero_le j) (by omega)
  · intro he
    unfold highlight_text
    rw [if_pos (by rw [he]; rfl)]
  · intro he
    unfold highlight_text
    by_cases hq : (query == "") = true
    · rw [if_pos hq]
    · rw [if_neg hq, if_pos (by rw [he]; rfl)]

/-- C9 counterexample: with query "a a-b" over the text "a-b", the term
"a-b" has a whole-word occurrence at position 0, yet the output marks only
the single-character term "a" there — the overlapping occurrence of "a-b"
is left unwrapped, so not all occurrences of all terms are marked. -/
theorem highlight_overlapping_terms_unmarked :
    highlight_text "a-b" "a a-b" = "**a**-b" ∧
    matchTermAt "a-b".data 0 ['a', '-', 'b'] = true ∧
    ['a', '-', 'b'] ∈ queryWords "a a-b" ∧
    subMatches (queryWords "a a-b") "a-b".data = [(0, 1)] :=
  ⟨by decide, by decide, by decide, by decide⟩

theorem length_allocDF (st : List PandasDF) (d : PandasDF) :
    ((allocDF st d).1).length = st.length + 1 := by
  unfold allocDF
  rw [List.length_append]
  rfl

theorem getElem?_allocDF (st : List PandasDF) (d : PandasDF) {i : Nat}
    (h : i < st.length) : ((allocDF st d).1)[i]? = st[i]? := by
  unfold allocDF
  exact List.getElem?_append_left h

theorem getElem?_state_main (st0 : List PandasDF) (d1 d2 d3 : PandasDF) {i : Nat}
    (h : i < st0.length) :
    (((allocDF (allocDF st0 d1).1 d2).1).set (allocDF (allocDF st0 d1).1 d2).2 d3)[i]? =
      st0[i]? := by
  have h1 : (allocDF (allocDF st0 d1).1 d2).2 = st0.length + 1 := by
    show ((allocDF st0 d1).1).length = st0.length + 1
    exact length_allocDF st0 d1
  rw [h1]
  rw [List.getElem?_set_ne (by omega)]
  rw [getElem?_allocDF _ d2 (by rw [length_allocDF]; omega)]
  exact getElem?_allocDF st0 d1 h

/-- C10: search leaves the caller's DataFrame object unchanged — every
object present on the heap before the call, the input corpus included, is
untouched afterwards; the `Score` column is assigned only to the internal
line-148 copy. -/
theorem search_state_preserves_input (sim : List String → String → List ℚ)
    (st0 : List PandasDF) (dfId : Nat) (query : String) (top_n : Nat)
    (assay_filter organism_filter : Option String) (min_score : ℚ)
    (i : Nat) (h : i < st0.length) :
    ((search_experiments_state sim st0 dfId query top_n assay_filter organism_filter
        min_score).1)[i]? = st0[i]? := by
  unfold search_experiments_state
  split
  · exact getElem?_allocDF st0 _ h
  · split
    · exact getElem?_allocDF st0 _ h
    · split
      · exact getElem?_allocDF st0 _ h
      · exact getElem?_state_main st0 _ _ _ h

theorem search_state_preserves_input_witness :
    ((search_experiments_state simZero [⟨[(0, ⟨"bone", some "A", some "M"⟩)], none⟩] 0 "bone"
        10 none none 0).1)[0]? = some ⟨[(0, ⟨"bone", some "A", some "M"⟩)], none⟩ :=
  (search_state_preserves_input simZero [⟨[(0, ⟨"bone", some "A", some "M"⟩)], none⟩] 0 "bone"
      10 none none 0 0 (by decide)).trans rfl
